import Mathlib

/-!
Shallow embedding of the column semantic inference engine and cleaning
pipeline of the df-analyze preprocessing core of this repository
(src/preprocessing/inspection.py, src/preprocessing/cleaning.py,
src/preprocessing/prepare.py, src/_constants.py).

Modelling conventions:
* A column cell is an integer, a string, or a missing value (NaN): the
  pandas Series relevant to the claims carry exactly these shapes.
  Genuine float-typed columns and pandas CategoricalDtype columns are
  outside the model; no settled claim depends on them.
* Python float arithmetic is modelled by exact rationals.  The numeric
  values exercised by the claims are small enough that float64 arithmetic
  is exact on them.
* String-to-number parsing (Python int(), float(), pd.to_numeric) is
  modelled for plain decimal literals: optional sign, digits, optional
  single fractional part.  dateutil.parser.parse is an oracle parameter.
* np.random.permutation subsampling is modelled by explicit index-list
  parameters.
-/

namespace DfAnalyze

/-- A cell of a tabular column: an integer, a string, or a missing value. -/
inductive Cell where
  | i (n : ℤ)
  | s (t : String)
  | na
deriving DecidableEq, Repr

/-- Whether a cell is missing (pandas isna). -/
def Cell.isNa : Cell → Bool
  | .na => true
  | _ => false

/-- Python str() of a cell, as produced by pandas Series.astype(str)
(missing values render as the string nan). -/
def strCell : Cell → String
  | .i n => toString n
  | .s t => t
  | .na => "nan"

/-- Digits of a decimal literal to a natural number; none when the list is
empty or contains a non-digit. -/
def digitsToNat (cs : List Char) : Option ℕ :=
  if cs.isEmpty then none
  else
    cs.foldl
      (fun acc c =>
        match acc with
        | none => none
        | some n => if c.isDigit then some (n * 10 + (c.toNat - 48)) else none)
      (some 0)

/-- Python int(s) on a string: optional sign followed by digits.
(The source also tolerates surrounding whitespace and a leading plus with
underscores; the claims only exercise plain literals.) -/
def parseIntStr (str : String) : Option ℤ :=
  match str.data with
  | '-' :: rest => (digitsToNat rest).map (fun n => -(n : ℤ))
  | '+' :: rest => (digitsToNat rest).map (fun n => (n : ℤ))
  | cs => (digitsToNat cs).map (fun n => (n : ℤ))

/-- Split a character list at the first dot, if any. -/
def splitOnDot : List Char → List Char × Option (List Char)
  | [] => ([], none)
  | '.' :: rest => ([], some rest)
  | c :: rest =>
      let (pre, post) := splitOnDot rest
      (c :: pre, post)

/-- Python float(s) on a string, restricted to plain decimal literals:
optional sign, an integer part and an optional fractional part, at least
one digit overall.  The exact rational value is returned. -/
def parseFloatStr (str : String) : Option ℚ :=
  let (neg, body) :=
    match str.data with
    | '-' :: rest => (true, rest)
    | '+' :: rest => (false, rest)
    | cs => (false, cs)
  let (ip, fp) := splitOnDot body
  let value : Option ℚ :=
    match fp with
    | none => (digitsToNat ip).map (fun n => (n : ℚ))
    | some fcs =>
        if ip.isEmpty && fcs.isEmpty then none
        else if !(ip.all Char.isDigit) || !(fcs.all Char.isDigit) then none
        else
          let ipn : ℕ := (digitsToNat ip).getD 0
          let fpn : ℕ := (digitsToNat fcs).getD 0
          some ((ipn : ℚ) + (fpn : ℚ) / ((10 : ℚ) ^ fcs.length))
  value.map (fun q => if neg then -q else q)

/-- Whether a string is the canonical Python repr of its own float value,
i.e. str(float(t)) == t: sign, integer part without spurious leading zeros,
a dot, and a fractional part without spurious trailing zeros.  (Used by
converts_to_float, whose first branch checks that astype(float).astype(str)
round-trips; exactness of short decimals in float64 is assumed.) -/
def isCanonicalFloatStr (str : String) : Bool :=
  let body :=
    match str.data with
    | '-' :: rest => rest
    | cs => cs
  match splitOnDot body with
  | (_, none) => false
  | (ip, some fp) =>
      ip.all Char.isDigit && fp.all Char.isDigit &&
      !ip.isEmpty && !fp.isEmpty &&
      (ip = ['0'] || ip.headD '0' ≠ '0') &&
      (fp = ['0'] || fp.getLastD '0' ≠ '0')

/-- src/preprocessing/inspection.py converts_to_int (lines 358-377):
series.astype(int) succeeds (every cell an integer or an integer-literal
string, no NaN), or pandas convert_dtypes with convert_floating disabled
infers an integer dtype (an integer column with possible NaNs and at least
one integer; string cells force a string dtype). -/
def converts_to_int (col : List Cell) : Bool :=
  (col.all fun c =>
    match c with
    | .i _ => true
    | .s t => (parseIntStr t).isSome
    | .na => false) ||
  ((col.any fun c => match c with | .i _ => true | _ => false) &&
   (col.all fun c => match c with | .i _ => true | .na => true | .s _ => false))

/-- src/preprocessing/inspection.py converts_to_float (lines 380-395):
astype(float).astype(str) must reproduce the original values, which for
this cell universe means every cell is a string in canonical float form.
(The convert_dtypes fallback infers a float dtype only for columns already
holding native floats, which the model's cell universe excludes.) -/
def converts_to_float (col : List Cell) : Bool :=
  col.all fun c =>
    match c with
    | .s t => isCanonicalFloatStr t
    | _ => false

/-- pd.to_numeric(series, errors=coerce) on one cell. -/
def toNumeric : Cell → Option ℚ
  | .i n => some (n : ℚ)
  | .s t => parseFloatStr t
  | .na => none

/-- Python int() / numpy astype(int) truncation of a float toward zero. -/
def truncQ (q : ℚ) : ℤ :=
  Int.tdiv q.num (q.den : ℤ)

/-- Insert into a sorted list according to a boolean order. -/
def insertBy (le : α → α → Bool) (a : α) : List α → List α
  | [] => [a]
  | b :: bs => if le a b then a :: b :: bs else b :: insertBy le a bs

/-- Insertion sort according to a boolean order (models np.sort / sorted). -/
def sortBy (le : α → α → Bool) : List α → List α
  | [] => []
  | a :: as => insertBy le a (sortBy le as)

/-- Boolean order on integers. -/
def intLe (a b : ℤ) : Bool := decide (a ≤ b)

/-- Maximum of a list of integers (np.max over a nonempty array; 0 for the
empty list, which the source never reaches). -/
def listMaxZ : List ℤ → ℤ
  | [] => 0
  | x :: xs => xs.foldl max x

/-- Minimum of a list of integers (np.min analogue). -/
def listMinZ : List ℤ → ℤ
  | [] => 0
  | x :: xs => xs.foldl min x

/-- Maximum of a list of rationals (np.max over a nonempty float array). -/
def listMaxQ : List ℚ → ℚ
  | [] => 0
  | x :: xs => xs.foldl max x

/-- src/preprocessing/inspection.py prob_unq_ordinals (lines 338-350):
probability that n_samples uniform draws from [0, ordinal_max] are all
distinct, computed as the product over i in range(1, n_samples - 1) of
(ordinal_max - i) / ordinal_max, with an early 0.0 when
n_samples > ordinal_max.  Python float arithmetic is modelled exactly
in the rationals. -/
def prob_unq_ordinals (n_samples : ℕ) (ordinal_max : ℤ) : ℚ :=
  if (n_samples : ℤ) > ordinal_max then 0
  else
    (List.range' 1 (n_samples - 2)).foldl
      (fun p i => p * (((ordinal_max : ℚ) - (i : ℚ)) / (ordinal_max : ℚ))) 1

/-- src/preprocessing/inspection.py maybe_large_ordinal (lines 353-355),
applied to the NaN-dropped numeric values of a column. -/
def maybe_large_ordinal (dropped : List ℚ) : Bool :=
  decide (prob_unq_ordinals dropped.length (truncQ (listMaxQ dropped)) ≥ 1/2)

/-- Reasons attached to the looks_ordinal verdict (the descriptive strings
of lines 398-469, as a tag instead of formatted text). -/
inductive OrdReason where
  | largeRange
  | allUnique
  | binaryIndicator
  | increasingInts
  | likertZeroIdx
  | likertScale
  | commonScaleMax
  | zeroIdxScaleMax
  | notOrdinal
deriving DecidableEq, Repr

/-- Core of looks_ordinal on the NaN-dropped numeric values (lines
414-469).  On a NaN-free numeric series, converts_to_int(dropped) and
dropped.astype(int) always succeed by truncation, so the two guards of
lines 415-422 cannot fire and the values are truncated to integers. -/
def ordinal_of_numeric (dropped : List ℚ) : Bool × OrdReason :=
  let ints : List ℤ := dropped.map truncQ
  let unq_ints : List ℤ := ((sortBy intLe ints).dedup)
  if unq_ints.all (fun v => decide (ints.count v = 1)) then
    if maybe_large_ordinal dropped then (true, .largeRange)
    else (false, .allUnique)
  else
    let diffs : List ℤ := unq_ints.zipWith (fun a b => b - a) unq_ints.tail
    if diffs.dedup.length = 1 then
      if listMinZ ints = 0 ∧ listMaxZ ints = 1 then (true, .binaryIndicator)
      else (true, .increasingInts)
    else
      let imax : ℤ := listMaxZ unq_ints
      if imax = 4 ∨ imax = 6 then (true, .likertZeroIdx)
      else if imax = 5 ∨ imax = 7 then (true, .likertScale)
      else if imax = 10 ∨ imax = 100 then (true, .commonScaleMax)
      else if imax = 9 ∨ imax = 99 then (true, .zeroIdxScaleMax)
      else (false, .notOrdinal)

/-- src/preprocessing/inspection.py looks_ordinal (lines 398-469):
coerce with pd.to_numeric(errors=coerce), fail when everything coerces to
NaN, drop the NaNs and classify the remaining numeric values. -/
def looks_ordinal (col : List Cell) : Bool × OrdReason :=
  let forced : List (Option ℚ) := col.map toNumeric
  if forced.all Option.isNone then (false, .notOrdinal)
  else ordinal_of_numeric (forced.filterMap id)

/-- Reasons for the looks_floatlike verdict (lines 472-507). -/
inductive FloatReason where
  | convertsInt
  | looksOrdinal
  | allConvertFloat
  | noFloats
  | mostlyFloats
  | fewFloats
deriving DecidableEq, Repr

/-- src/preprocessing/inspection.py looks_floatlike (lines 472-507):
excluded when the column converts to int or looks ordinal; float-like when
series.astype(float) succeeds outright; otherwise coerce and compare the
NaN rate against 20 percent. -/
def looks_floatlike (col : List Cell) : Bool × FloatReason :=
  if converts_to_int col then (false, .convertsInt)
  else if (looks_ordinal col).1 then (false, .looksOrdinal)
  else if col.all (fun c =>
      match c with
      | .i _ => true
      | .na => true
      | .s t => (parseFloatStr t).isSome) then
    (true, .allConvertFloat)
  else
    let forced : List (Option ℚ) := col.map toNumeric
    if forced.all Option.isNone then (false, .noFloats)
    else if 5 * forced.countP Option.isNone > col.length then (true, .mostlyFloats)
    else (false, .fewFloats)

/-- Reasons for the looks_id_like verdict (lines 301-335). -/
inductive IdReason where
  | appearsFloat
  | allUniqueWithNaNs
  | halfNaN
  | allNonNaNUnique
  | halfUnique
  | notId
deriving DecidableEq, Repr

/-- The TypeError numpy raises when asked to sort an object array holding
both integers and strings, as np.unique does. -/
inductive NpSortError where
  | mixedTypes
deriving DecidableEq, Repr

/-- Whether np.unique on the raw (non-stringified) cells raises that
TypeError: the cells mix integer and string values, which object-array
sorting cannot compare. -/
def npUniqueRaises (cells : List Cell) : Bool :=
  (cells.any fun c => match c with | .i _ => true | _ => false) &&
  (cells.any fun c => match c with | .s _ => true | _ => false)

/-- src/preprocessing/inspection.py looks_id_like (lines 301-335).
The pandas-CategoricalDtype early branch (lines 314-317) is outside the
model: the modelled columns carry plain object dtype.  The
np.unique(dropped) call of line 328 operates on the raw values with no
guard (unlike get_unq_counts, whose except clause at line 238 falls back
to astype(str)), so on a column mixing integer and string non-missing
values it raises TypeError, modelled as the error case. -/
def looks_id_like (col : List Cell) : Except NpSortError (Bool × IdReason) :=
  if (looks_floatlike col).1 then .ok (false, .appearsFloat)
  else
    let strs := col.map strCell
    if strs.dedup.all (fun v => decide (strs.count v = 1)) then
      .ok (true, .allUniqueWithNaNs)
    else
      let dropped := col.filter (fun c => !c.isNa)
      if 2 * dropped.length < col.length then .ok (false, .halfNaN)
      else if npUniqueRaises dropped then .error .mixedTypes
      else
        let unqs := dropped.dedup
        if unqs.all (fun v => decide (dropped.count v = 1)) then
          .ok (true, .allNonNaNUnique)
        else if 2 * unqs.length ≥ dropped.length then .ok (true, .halfUnique)
        else .ok (false, .notId)

/-- src/_constants.py N_CAT_LEVEL_MIN (line 85). -/
def N_CAT_LEVEL_MIN : ℕ := 20

/-- src/preprocessing/inspection.py is_timelike (lines 245-263):
a single stringified value is time-like when it parses as neither int nor
float but dateutil.parser.parse accepts it; the date parser is the oracle
parameter dparse. -/
def is_timelike (dparse : String → Bool) (str : String) : Bool :=
  if (parseIntStr str).isSome then false
  else if (parseFloatStr str).isSome then false
  else dparse str

/-- Reasons for the looks_timelike verdict (lines 266-298). -/
inductive TimeReason where
  | convertsInt
  | convertsFloat
  | wellSampledCat
  | allParse
  | mostParse
  | notTime
deriving DecidableEq, Repr

/-- src/preprocessing/inspection.py looks_timelike (lines 266-298).
The np.random.permutation(N)[:n_subsamp] draw is the explicit parameter
idx; percentages are exact rationals.  On the default range index the
loc-based secondary evaluation of line 295 reads the same rows as the
iloc-based one, so both rates are computed from idx (the secondary one
dividing by len(idx), the mean denominator). -/
def looks_timelike (dparse : String → Bool) (idx : List ℕ) (col : List Cell) :
    Bool × TimeReason :=
  if converts_to_int col then (false, .convertsInt)
  else if converts_to_float col then (false, .convertsFloat)
  else
    let strs := col.map strCell
    if strs.dedup.all (fun v => decide (N_CAT_LEVEL_MIN < strs.count v)) then
      (false, .wellSampledCat)
    else
      let N := strs.length
      let n_subsamp := min (max ((N + 1) / 2) 500) N
      let sample := idx.map (fun j => strs.getD j "")
      let nParse : ℕ := sample.countP (is_timelike dparse)
      let percent : ℚ := (nParse : ℚ) / (n_subsamp : ℚ)
      if percent ≥ 1 then (true, .allParse)
      else if percent > 1/3 then
        let p : ℚ := (nParse : ℚ) / (idx.length : ℚ)
        if p > 1/2 then (true, .mostParse) else (false, .notTime)
      else (false, .notTime)

/-- Reason for the looks_constant verdict (lines 532-535). -/
inductive ConstReason where
  | single
  | multi
deriving DecidableEq, Repr

/-- src/preprocessing/inspection.py looks_constant (lines 532-535). -/
def looks_constant (col : List Cell) : Bool × ConstReason :=
  if ((col.map strCell).dedup).length = 1 then (true, .single)
  else (false, .multi)

/-- Reasons for the looks_categorical verdict (lines 510-529). -/
inductive CatReason where
  | floaty
  | timey
  | idish
  | stringData
  | intNotOrdinal
  | eitherCatOrOrd
deriving DecidableEq, Repr

/-- src/preprocessing/inspection.py looks_categorical (lines 510-529);
its internal looks_timelike call draws its own fresh subsample, passed
here as idx.  The looks_id_like call of line 515 can raise the mixed-type
TypeError, which propagates. -/
def looks_categorical (dparse : String → Bool) (idx : List ℕ) (col : List Cell) :
    Except NpSortError (Bool × CatReason) :=
  if (looks_floatlike col).1 then .ok (false, .floaty)
  else if (looks_timelike dparse idx col).1 then .ok (false, .timey)
  else
    match looks_id_like col with
    | .error e => .error e
    | .ok il =>
        if il.1 then .ok (false, .idish)
        else if !converts_to_int col then .ok (true, .stringData)
        else if !(looks_ordinal col).1 then .ok (true, .intNotOrdinal)
        else .ok (true, .eitherCatOrOrd)

/-- A dataframe for the inspection pipeline: named columns of cells
(column names assumed distinct, all columns of equal length). -/
abbrev Df := List (String × List Cell)

/-- df[col], defaulting to the empty column for a missing name. -/
def lookupCol (df : Df) (name : String) : List Cell :=
  (df.lookup name).getD []

/-- Whether a column carries pandas object/string dtype in the model:
it holds at least one string cell. -/
def isStrCol (col : List Cell) : Bool :=
  col.any fun c => match c with | .s _ => true | _ => false

/-- Whether a column carries pandas int dtype in the model: nonempty and
all cells integers (a NaN forces a float dtype, a string an object one). -/
def isIntCol (col : List Cell) : Bool :=
  !col.isEmpty && col.all fun c => match c with | .i _ => true | _ => false

/-- src/preprocessing/inspection.py get_str_cols (lines 220-222). -/
def get_str_cols (df : Df) (target : String) : List String :=
  (df.filter fun c => c.1 ≠ target && isStrCol c.2).map Prod.fst

/-- src/preprocessing/inspection.py get_int_cols (lines 225-227). -/
def get_int_cols (df : Df) (target : String) : List String :=
  (df.filter fun c => c.1 ≠ target && isIntCol c.2).map Prod.fst

/-- Boolean code-point order on strings (Python str comparison). -/
def charListLe : List Char → List Char → Bool
  | [], _ => true
  | _ :: _, [] => false
  | a :: as, b :: bs =>
      if a.toNat < b.toNat then true
      else if b.toNat < a.toNat then false
      else charListLe as bs

/-- Boolean order on strings, as used by Python sorted(). -/
def strLe (a b : String) : Bool := charListLe a.data b.data

/-- src/preprocessing/inspection.py ColumnDescriptions (lines 131-139):
the per-column verdict record, with reason tags in place of the source's
descriptive strings. -/
structure ColumnDescriptions where
  col : String
  const : Option ConstReason := none
  time : Option TimeReason := none
  ord : Option OrdReason := none
  id : Option IdReason := none
  float : Option FloatReason := none
  cat : Option CatReason := none
deriving DecidableEq, Repr

/-- src/preprocessing/inspection.py inspect_str_column (lines 579-620):
the per-column cascade.  sub is the subsample index for the direct
looks_timelike call, sub2 the one for the call inside looks_categorical.
The try/except wrapper of lines 618-620 catches the TypeError that
looks_id_like raises on a mixed integer/string column (directly at line
602 or through looks_categorical at line 613) and returns the failing
column's name with the exception, modelled as the error case. -/
def inspect_str_column (dparse : String → Bool) (sub sub2 : List ℕ)
    (cats ords : List String) (name : String) (col : List Cell) :
    Except String ColumnDescriptions :=
  let r0 : ColumnDescriptions := { col := name }
  if (looks_constant col).1 then .ok { r0 with const := some (looks_constant col).2 }
  else
    let tl := looks_timelike dparse sub col
    if tl.1 then .ok { r0 with time := some tl.2 }
    else
      let ol := looks_ordinal col
      let r1 :=
        if ol.1 && !cats.contains name && !ords.contains name then
          { r0 with ord := some ol.2 }
        else r0
      match looks_id_like col with
      | .error _ => .error name
      | .ok il =>
          let r2 := if il.1 then { r1 with id := some il.2 } else r1
          let fl := looks_floatlike col
          let r3 := if fl.1 then { r2 with float := some fl.2 } else r2
          if fl.1 || il.1 || tl.1 then .ok r3
          else
            match looks_categorical dparse sub2 col with
            | .error _ => .error name
            | .ok cl =>
                if cl.1 && !cats.contains name && !ords.contains name then
                  .ok { r3 with cat := some cl.2 }
                else .ok r3

/-- Aggregated per-kind column descriptions, the model of the six
InspectionInfo values returned by inspect_str_columns (lines 623-702). -/
structure StrInspect where
  floats : List (String × FloatReason)
  ords : List (String × OrdReason)
  ids : List (String × IdReason)
  times : List (String × TimeReason)
  cats : List (String × CatReason)
  consts : List (String × ConstReason)
deriving DecidableEq, Repr

/-- The aggregation loop of inspect_str_columns (lines 667-673): the
first per-column failure, in column order, aborts the whole batch with a
fatal InspectionError carrying that column's name. -/
def collectDescs : List (Except String ColumnDescriptions) →
    Except String (List ColumnDescriptions)
  | [] => .ok []
  | .error c :: _ => .error c
  | .ok d :: rest =>
      match collectDescs rest with
      | .error c => .error c
      | .ok ds => .ok (d :: ds)

/-- src/preprocessing/inspection.py inspect_str_columns (lines 623-702):
run the cascade on every named column (the joblib parallel map is a pure
map), fail on the first errored column, and otherwise collect the fired
verdicts per kind.  sub and sub2 assign each column its two subsample
draws. -/
def inspect_str_columns (dparse : String → Bool) (sub sub2 : String → List ℕ)
    (df : Df) (str_cols cats ords : List String) : Except String StrInspect :=
  match collectDescs (str_cols.map fun c =>
      inspect_str_column dparse (sub c) (sub2 c) cats ords c (lookupCol df c)) with
  | .error c => .error c
  | .ok descs =>
      .ok { floats := descs.filterMap fun d => d.float.map fun r => (d.col, r)
            ords := descs.filterMap fun d => d.ord.map fun r => (d.col, r)
            ids := descs.filterMap fun d => d.id.map fun r => (d.col, r)
            times := descs.filterMap fun d => d.time.map fun r => (d.col, r)
            cats := descs.filterMap fun d => d.cat.map fun r => (d.col, r)
            consts := descs.filterMap fun d => d.const.map fun r => (d.col, r) }

/-- src/preprocessing/inspection.py inspect_other_columns (lines 730-758):
remaining columns only receive the constant check. -/
def inspect_other_columns (df : Df) (other_cols : List String) :
    List (String × ConstReason) :=
  other_cols.filterMap fun c =>
    if (looks_constant (lookupCol df c)).1 then
      some (c, (looks_constant (lookupCol df c)).2)
    else none

/-- src/preprocessing/inspection.py get_unq_counts (lines 230-242):
per-column distinct-value count and its NaN-less variant.  np.unique with
the astype(str) fallback is modelled by distinct stringified values. -/
def get_unq_counts (df : Df) (target : String) :
    List (String × ℕ) × List (String × ℕ) :=
  let X := df.filter fun c => c.1 ≠ target
  (X.map fun c => (c.1, ((c.2.map strCell).dedup).length),
   X.map fun c =>
     (c.1, ((c.2.map strCell).dedup).length - (if c.2.any Cell.isNa then 1 else 0)))

/-- src/preprocessing/inspection.py InflationInfo (lines 121-128). -/
structure InflationInfo where
  col : String
  to_deflate : List String
  to_keep : List String
  n_deflate : ℕ
  n_keep : ℕ
  n_total : ℕ
deriving DecidableEq, Repr

/-- The per-column body of the detect_big_cats inflation loop (lines
556-575): distinct stringified levels and their supports; none when the
column has at most two levels or no level is below N_CAT_LEVEL_MIN.
np.unique additionally sorts the levels, which no claimed property
depends on. -/
def inflationInfoFor (df : Df) (col : String) : Option InflationInfo :=
  let strs := (lookupCol df col).map strCell
  let unqs := strs.dedup
  let n_total := unqs.length
  if n_total ≤ 2 then none
  else if unqs.all (fun v => decide (N_CAT_LEVEL_MIN ≤ strs.count v)) then none
  else
    let to_keep := unqs.filter fun v => decide (N_CAT_LEVEL_MIN ≤ strs.count v)
    let to_deflate := unqs.filter fun v => !decide (N_CAT_LEVEL_MIN ≤ strs.count v)
    some { col := col, to_deflate := to_deflate, to_keep := to_keep,
           n_deflate := n_total - to_keep.length, n_keep := to_keep.length,
           n_total := n_total }

/-- src/preprocessing/inspection.py detect_big_cats (lines 538-576):
the big-categorical summary (20-or-more distinct levels, literal 20 in the
source) and the list of InflationInfo records; the printed InspectionInfo
is display-only and omitted. -/
def detect_big_cats (df : Df) (unique_counts : List (String × ℕ))
    (all_cats : List String) : List (String × ℕ) × List InflationInfo :=
  let big_cats := all_cats.filter fun col =>
    match unique_counts.lookup col with
    | some n => decide (20 ≤ n)
    | none => false
  (big_cats.map fun col => (col, (unique_counts.lookup col).getD 0),
   all_cats.filterMap (inflationInfoFor df))

/-- src/preprocessing/inspection.py InspectionResults (lines 189-203). -/
structure InspectionResults where
  floats : List (String × FloatReason)
  ords : List (String × OrdReason)
  ids : List (String × IdReason)
  times : List (String × TimeReason)
  consts : List (String × ConstReason)
  cats : List (String × CatReason)
  int_ords : List (String × OrdReason)
  int_ids : List (String × IdReason)
  big_cats : List (String × ℕ)
  nyan_cats : List String
  inflation : List InflationInfo
  bin_cats : List String
  multi_cats : List String
deriving DecidableEq, Repr

/-- The fatal inspection failures: the TypeError of lines 820-826 whose
message embeds the sorted ambiguous column list, and the InspectionError
of lines 668-673 raised when a column's classification itself raised,
carrying that column's name. -/
inductive InspectionErr where
  | ambiguity (cols : List String)
  | workerFailure (col : String)
deriving DecidableEq, Repr

/-- The ambiguous-column computation of inspect_data (lines 815-819):
columns firing the ordinal heuristic (string or integer) and the
categorical heuristic, minus the user-declared categoricals and ordinals,
sorted.  Defined as [] when either inspection batch fails, in which case
inspect_data raises before reaching this computation. -/
def ambiguousColumns (dparse : String → Bool) (sub sub2 : String → List ℕ)
    (df : Df) (target : String) (categoricals ordinals : List String) :
    List String :=
  let str_cols := get_str_cols df target
  let int_cols := get_int_cols df target
  let dfX := df.filter fun c => c.1 ≠ target
  match inspect_str_columns dparse sub sub2 dfX str_cols categoricals ordinals,
      inspect_str_columns dparse sub sub2 dfX int_cols categoricals ordinals with
  | .ok rS, .ok rI =>
      let allOrd := rS.ords.map Prod.fst ++ rI.ords.map Prod.fst
      let inter := (allOrd.filter fun c => (rS.cats.map Prod.fst).contains c).dedup
      sortBy strLe
        (inter.filter fun c => !categoricals.contains c && !ordinals.contains c)
  | _, _ => []

/-- src/preprocessing/inspection.py inspect_data (lines 761-843):
classify string, integer and remaining columns (a failed per-column
classification aborts with the InspectionError naming the column, before
anything else), aggregate the verdicts, detect big and inflated
categoricals, and fail with the ambiguous column list when a column fired
both the ordinal and the categorical heuristic without a user override.
The pandas-categorical dtype conversion of lines 772-781 is a no-op on
the modelled cell universe; in the success case the ambiguity check reads
the same deterministic per-column results through ambiguousColumns. -/
def inspect_data (dparse : String → Bool) (sub sub2 : String → List ℕ)
    (df : Df) (target : String) (categoricals ordinals : List String) :
    Except InspectionErr InspectionResults :=
  let str_cols := get_str_cols df target
  let int_cols := get_int_cols df target
  let dfX := df.filter fun c => c.1 ≠ target
  let remain := (dfX.map Prod.fst).filter fun c =>
    !str_cols.contains c && !int_cols.contains c
  match inspect_str_columns dparse sub sub2 dfX str_cols categoricals ordinals with
  | .error c => .error (.workerFailure c)
  | .ok rS =>
      match inspect_str_columns dparse sub sub2 dfX int_cols categoricals ordinals with
      | .error c => .error (.workerFailure c)
      | .ok rI =>
          let other_consts := inspect_other_columns dfX remain
          let all_consts := rS.consts ++ rI.consts ++ other_consts
          let all_cats := categoricals ++ rS.cats.map Prod.fst
          let ucs := get_unq_counts dfX target
          let bigs := detect_big_cats dfX ucs.1 all_cats
          let bin_cats := sortBy strLe
            ((ucs.2.filterMap fun p => if p.2 = 2 then some p.1 else none).filter
              (all_cats.contains ·))
          let nyan_cats := sortBy strLe
            ((ucs.2.filterMap fun p => if p.2 = 1 then some p.1 else none).filter
              (all_cats.contains ·))
          let multi_cats := sortBy strLe
            ((ucs.2.filterMap fun p => if 2 < p.2 then some p.1 else none).filter
              (all_cats.contains ·))
          let amb := ambiguousColumns dparse sub sub2 df target categoricals ordinals
          if amb = [] then
            .ok { floats := rS.floats, ords := rS.ords, ids := rS.ids,
                  times := rS.times, consts := all_consts, cats := rS.cats,
                  int_ords := rI.ords, int_ids := rI.ids, big_cats := bigs.1,
                  nyan_cats := nyan_cats, inflation := bigs.2,
                  bin_cats := bin_cats, multi_cats := multi_cats }
          else .error (.ambiguity amb)

/-- Whether an Except value is a success. -/
def exceptIsOk : Except ε α → Bool
  | .ok _ => true
  | .error _ => false

/-- src/preprocessing/cleaning.py encode_target (lines 78-105) for
classification targets.  rows is the feature dataframe (one entry per
sample), target the class label per sample.  np.unique(target) is the
sorted distinct labels; labels whose count is at most 20 are dropped with
their rows; the remainder is LabelEncoder-encoded (index into the sorted
remaining classes).  The NaN-target drop of lines 100-102 is a no-op on
the NaN-free integer labels the model carries. -/
def encode_target (rows : List α) (target : List ℤ) : List α × List ℕ :=
  let unqs := (sortBy intLe target).dedup
  let small := unqs.filter fun v => decide (target.count v ≤ 20)
  let pairs := (rows.zip target).filter fun p => !small.contains p.2
  let classes := (sortBy intLe (pairs.map Prod.snd)).dedup
  (pairs.map Prod.fst, (pairs.map Prod.snd).map fun v => classes.indexOf v)

/-- src/enumerables.py NanHandling.  Modelled from the spec: the
enumerables module is not under src/; section 4.4 lists the configurable
strategies as drop rows/columns entirely, mean, median, or a multivariate
iterative imputer. -/
inductive NanHandling where
  | drop
  | mean
  | median
  | impute
deriving DecidableEq, Repr

/-- A dataframe with an explicit row count, so that a frame with zero
columns still knows its number of rows (pandas keeps the index). -/
structure DFrame where
  cols : List (String × List Cell)
  nrows : ℕ
deriving DecidableEq, Repr

/-- Row positions kept after dropping rows whose target value is NaN
(lines 40-41 of handle_continuous_nans). -/
def targetKeepRows (df : DFrame) (target : String) : List ℕ :=
  (List.range df.nrows).filter fun j =>
    !(((df.cols.lookup target).getD []).getD j Cell.na).isNa

/-- The dataframe restricted to the target-non-NaN rows. -/
def dfAfterTargetDrop (df : DFrame) (target : String) :
    List (String × List Cell) :=
  df.cols.map fun c =>
    (c.1, (targetKeepRows df target).map fun j => c.2.getD j Cell.na)

/-- The continuous predictor columns (X of line 44: target and
categorical columns removed) that survive dropna(axis=columns). -/
def contColsNoNa (df : DFrame) (target : String) (cat_cols : List String) :
    List (String × List Cell) :=
  ((dfAfterTargetDrop df target).filter fun c =>
    !(c.1 = target || cat_cols.contains c.1)).filter fun c => !c.2.any Cell.isNa

/-- Row positions (within the target-kept rows) surviving
dropna(axis=index) on the NaN-free continuous columns. -/
def keptContRows (df : DFrame) (target : String) (cat_cols : List String) :
    List ℕ :=
  (List.range (targetKeepRows df target).length).filter fun j =>
    (contColsNoNa df target cat_cols).all fun c => !(c.2.getD j Cell.na).isNa

/-- The continuous predictor table left by the drop strategy of
handle_continuous_nans: drop every column containing a NaN, then every
row containing a NaN among the remaining columns (X_clean of line 49). -/
def dropCleaned (df : DFrame) (target : String) (cat_cols : List String) :
    DFrame :=
  { cols := (contColsNoNa df target cat_cols).map fun c =>
      (c.1, (keptContRows df target cat_cols).map fun j => c.2.getD j Cell.na),
    nrows := (keptContRows df target cat_cols).length }

/-- src/preprocessing/cleaning.py handle_continuous_nans (lines 35-75),
NanHandling.Drop branch: drop target-NaN rows, split off the categorical
columns and target, drop NaN columns then NaN rows from the continuous
table, and fail listing the alternate strategies when nothing remains
(0 in X_clean.shape, lines 50-56).  On success the source reattaches the
target to X_clean and concatenates with the categorical columns; pandas
aligns that concat on the pre-drop row index, refilling the rows dropped
from X_clean with NaN, which the ok payload reproduces. -/
def handle_continuous_nans_drop (df : DFrame) (target : String)
    (cat_cols : List String) : Except (List NanHandling) DFrame :=
  let keep := targetKeepRows df target
  let df1cols := dfAfterTargetDrop df target
  let X_cat := df1cols.filter fun c => cat_cols.contains c.1
  let y := (df1cols.lookup target).getD []
  let X_clean := dropCleaned df target cat_cols
  if X_clean.nrows = 0 || X_clean.cols.length = 0 then
    .error [NanHandling.mean, NanHandling.median, NanHandling.impute]
  else
    let kept := keptContRows df target cat_cols
    let pad := fun (cells : List Cell) =>
      (List.range keep.length).map fun j =>
        if kept.contains j then cells.getD j Cell.na else Cell.na
    .ok { cols := X_cat ++ (contColsNoNa df target cat_cols).map
            (fun c => (c.1, pad c.2)) ++ [(target, pad y)],
          nrows := keep.length }

/-- Whether the drop strategy annihilates the continuous predictor table:
dropping NaN columns and then NaN rows leaves zero rows or zero columns
(the failure condition quoted by the claim). -/
def dropAnnihilates (df : DFrame) (target : String) (cat_cols : List String) :
    Bool :=
  (dropCleaned df target cat_cols).nrows = 0 ||
  (dropCleaned df target cat_cols).cols.length = 0

/-- One of the four prepared tables of src/preprocessing/prepare.py:
row data plus a pandas row index. -/
structure PTable where
  data : List (List Cell)
  index : List ℕ
deriving DecidableEq, Repr

/-- The prepared target series of src/preprocessing/prepare.py. -/
structure PSeries where
  data : List Cell
  index : List ℕ
deriving DecidableEq, Repr

/-- The dimension-mismatch ValueError of PreparedData.validate: the
offending table named in the message, the sample count the message
reports for it, and the expected count len(X). -/
structure ShapeError where
  table : String
  reported : ℕ
  expected : ℕ
deriving DecidableEq, Repr

/-- src/preprocessing/prepare.py PreparedData.validate (lines 49-73):
check X_cont, X_cat and y against len(X), raising a ValueError that
names the offending table, then reset X to a dense range index and copy
it onto the other three.  Line 65 of the source formats len(X_cat), not
len(y), into the target mismatch message, which the error value
reproduces. -/
def validate (X X_cont X_cat : PTable) (y : PSeries) :
    Except ShapeError (PTable × PTable × PTable × PSeries) :=
  let n := X.data.length
  if X_cont.data.length ≠ n then
    .error { table := "Continuous data", reported := X_cont.data.length, expected := n }
  else if X_cat.data.length ≠ n then
    .error { table := "Categorical data", reported := X_cat.data.length, expected := n }
  else if y.data.length ≠ n then
    .error { table := "Target", reported := X_cat.data.length, expected := n }
  else
    let ix := List.range n
    .ok ({ X with index := ix }, { X_cont with index := ix },
         { X_cat with index := ix }, { y with index := ix })

/-- looks_ordinal on an integer-coercible column given as its list of
non-missing integer values. -/
def looks_ordinal_ints (xs : List ℤ) : Bool × OrdReason :=
  looks_ordinal (xs.map Cell.i)

/-- Whether every value of an integer list occurs exactly once (the
np.all(cnts == 1) test of line 431). -/
def allUniqueCounts (xs : List ℤ) : Bool :=
  ((sortBy intLe xs).dedup).all fun v => decide (xs.count v = 1)

/-- Claim C1 as stated, from the spec's words: for non-unique integer
data, ordinal exactly when the sorted distinct values are strictly
consecutive with gap always 1, or, when not perfectly consecutive, the
maximum value lies in 4, 6, 5, 7, 10, 100, 9 or 99. -/
def c1ClaimRule (xs : List ℤ) : Bool :=
  let unq := (sortBy intLe xs).dedup
  let gaps := unq.zipWith (fun a b => b - a) unq.tail
  if gaps.all fun d => decide (d = 1) then true
  else
    let m := listMaxZ unq
    decide (m = 4 ∨ m = 6 ∨ m = 5 ∨ m = 7 ∨ m = 10 ∨ m = 100 ∨ m = 9 ∨ m = 99)

/-- Claim C1 amended: for non-unique integer data the code classifies
ordinal when the successive differences of the sorted distinct values are
all equal to one single common gap (not necessarily 1; values spanning
exactly 0 and 1 reported as binary indicator), and otherwise falls back
to the common-scale maxima 4, 6, 5, 7, 10, 100, 9, 99. -/
def c1AmendedRule (xs : List ℤ) : Bool × OrdReason :=
  let unq := (sortBy intLe xs).dedup
  let diffs := unq.zipWith (fun a b => b - a) unq.tail
  if diffs.dedup.length = 1 then
    if listMinZ xs = 0 ∧ listMaxZ xs = 1 then (true, .binaryIndicator)
    else (true, .increasingInts)
  else
    let imax := listMaxZ unq
    if imax = 4 ∨ imax = 6 then (true, .likertZeroIdx)
    else if imax = 5 ∨ imax = 7 then (true, .likertScale)
    else if imax = 10 ∨ imax = 100 then (true, .commonScaleMax)
    else if imax = 9 ∨ imax = 99 then (true, .zeroIdxScaleMax)
    else (false, .notOrdinal)

/-- Claim C4 as stated, from the spec's words: time-like exactly when the
column converts to neither int nor float, some level has support at most
the minimum-category-size threshold, and either the whole subsample
date-parses or more than a third of it parses while the secondary
evaluation's parse rate exceeds one half. -/
def c4ClaimRule (dparse : String → Bool) (idx : List ℕ) (col : List Cell) :
    Bool :=
  let strs := col.map strCell
  let sample := idx.map fun j => strs.getD j ""
  let n_subsamp := min (max ((strs.length + 1) / 2) 500) strs.length
  !converts_to_int col && !converts_to_float col &&
  !(strs.dedup.all fun v => decide (N_CAT_LEVEL_MIN < strs.count v)) &&
  (sample.all (is_timelike dparse) ||
   (decide ((1/3 : ℚ) < (sample.countP (is_timelike dparse) : ℚ) / (n_subsamp : ℚ)) &&
    decide ((1/2 : ℚ) < (sample.countP (is_timelike dparse) : ℚ) / (idx.length : ℚ))))

/-- The distinct stringified levels of a column (np.unique of
df[col].astype(str) in detect_big_cats). -/
def colLevels (df : Df) (col : String) : List String :=
  ((lookupCol df col).map strCell).dedup

/-- The support of one stringified level of a column. -/
def levelSupport (df : Df) (col : String) (v : String) : ℕ :=
  ((lookupCol df col).map strCell).count v

/-- A date-parse oracle that accepts nothing, for concrete witnesses. -/
def oracleF : String → Bool := fun _ => false

/-- An empty subsample assignment, for concrete witnesses. -/
def subEmpty : String → List ℕ := fun _ => []

/-- Concrete witness dataframe for the ambiguity claim: one string column
of the integer literals 0 and 1, three of each, and an integer target. -/
def dfAmb : Df :=
  [("c", [Cell.s "0", Cell.s "0", Cell.s "0", Cell.s "1", Cell.s "1", Cell.s "1"]),
   ("t", [Cell.i 0, Cell.i 1, Cell.i 0, Cell.i 1, Cell.i 0, Cell.i 1])]

/-- Concrete counterexample dataframe for the ambiguity claim: column m
mixes integer and string non-missing values, so its identifier check
raises the numpy sort TypeError; column c is the genuinely ambiguous
binary string column; t is the integer target. -/
def dfMix : Df :=
  [("m", [Cell.i 1, Cell.i 1, Cell.i 2, Cell.i 2, Cell.s "a", Cell.s "a"]),
   ("c", [Cell.s "0", Cell.s "0", Cell.s "0", Cell.s "1", Cell.s "1", Cell.s "1"]),
   ("t", [Cell.i 0, Cell.i 1, Cell.i 0, Cell.i 1, Cell.i 0, Cell.i 1])]

/-- Concrete witness dataframe for the inflation claim: one categorical
column with levels a (support 10), b (support 25) and c (support 1). -/
def dfInfl : Df :=
  [("k", List.replicate 10 (Cell.s "a") ++ List.replicate 25 (Cell.s "b") ++
    [Cell.s "c"])]

/-- The InflationInfo the detector emits on dfInfl. -/
def inflInfo : InflationInfo :=
  { col := "k", to_deflate := ["a", "c"], to_keep := ["b"],
    n_deflate := 2, n_keep := 1, n_total := 3 }

/-- Concrete witness dataframe for the NaN-drop exhaustion claim: one
non-NaN target row and a single continuous column that is entirely NaN,
so dropping NaN columns leaves zero columns. -/
def dfNan : DFrame :=
  { cols := [("t", [Cell.i 0]), ("a", [Cell.na])], nrows := 1 }

/-! Helper lemmas shared by the claim theorems.  The Batteries rational
arithmetic is irreducible by default, which blocks the decide tactic's
evaluation (the kernel itself reduces it fine); restore semireducibility
locally for the proofs below. -/

section

attribute [local semireducible] Rat.add Rat.sub Rat.mul Rat.inv

theorem mem_insertBy {le : α → α → Bool} {a x : α} {l : List α} :
    a ∈ insertBy le x l ↔ a = x ∨ a ∈ l := by
  induction l with
  | nil => simp [insertBy]
  | cons b bs ih =>
      simp only [insertBy]
      split
      · simp
      · simp only [List.mem_cons, ih]
        tauto

theorem mem_sortBy {le : α → α → Bool} {a : α} {l : List α} :
    a ∈ sortBy le l ↔ a ∈ l := by
  induction l with
  | nil => simp [sortBy]
  | cons b bs ih => simp [sortBy, mem_insertBy, ih]

theorem listMaxZ_cons (b : ℤ) (bs : List ℤ) :
    listMaxZ (b :: bs) = bs.foldl max b := rfl

theorem acc_le_foldl_max (l : List ℤ) (acc : ℤ) : acc ≤ l.foldl max acc := by
  induction l generalizing acc with
  | nil => simp
  | cons b bs ih =>
      simp only [List.foldl_cons]
      exact le_trans (le_max_left acc b) (ih (max acc b))

theorem le_foldl_max {l : List ℤ} {acc a : ℤ} (h : a ∈ l) :
    a ≤ l.foldl max acc := by
  induction l generalizing acc with
  | nil => simp at h
  | cons b bs ih =>
      simp only [List.foldl_cons]
      rcases List.mem_cons.mp h with rfl | h2
      · exact le_trans (le_max_right acc a) (acc_le_foldl_max bs _)
      · exact ih h2

theorem foldl_max_mem (l : List ℤ) (acc : ℤ) :
    l.foldl max acc = acc ∨ l.foldl max acc ∈ l := by
  induction l generalizing acc with
  | nil => simp
  | cons b bs ih =>
      simp only [List.foldl_cons]
      rcases ih (max acc b) with h | h
      · rw [h]
        rcases max_choice acc b with h2 | h2 <;> rw [h2]
        · exact Or.inl rfl
        · exact Or.inr (List.mem_cons_self _ _)
      · exact Or.inr (List.mem_cons_of_mem _ h)

theorem le_listMaxZ {l : List ℤ} {a : ℤ} (h : a ∈ l) : a ≤ listMaxZ l := by
  cases l with
  | nil => simp at h
  | cons b bs =>
      rw [listMaxZ_cons]
      rcases List.mem_cons.mp h with rfl | h2
      · exact acc_le_foldl_max bs a
      · exact le_foldl_max h2

theorem listMaxZ_mem {l : List ℤ} (h : l ≠ []) : listMaxZ l ∈ l := by
  cases l with
  | nil => exact absurd rfl h
  | cons b bs =>
      rw [listMaxZ_cons]
      rcases foldl_max_mem bs b with h2 | h2
      · rw [h2]; exact List.mem_cons_self _ _
      · exact List.mem_cons_of_mem _ h2

theorem listMaxZ_congr {l₁ l₂ : List ℤ} (h₁ : l₁ ≠ []) (h₂ : l₂ ≠ [])
    (h : ∀ a, a ∈ l₁ ↔ a ∈ l₂) : listMaxZ l₁ = listMaxZ l₂ :=
  le_antisymm (le_listMaxZ ((h _).mp (listMaxZ_mem h₁)))
    (le_listMaxZ ((h _).mpr (listMaxZ_mem h₂)))

theorem truncQ_intCast (n : ℤ) : truncQ ((n : ℚ)) = n := by
  unfold truncQ
  rw [Rat.intCast_num, Rat.intCast_den]
  exact Int.tdiv_one n

theorem filterMap_id_map_some (f : α → β) (l : List α) :
    (l.map fun a => some (f a)).filterMap id = l.map f := by
  induction l with
  | nil => rfl
  | cons a t ih => simp [ih]

theorem sortBy_dedup_mem {xs : List ℤ} {a : ℤ} :
    a ∈ (sortBy intLe xs).dedup ↔ a ∈ xs := by
  rw [List.mem_dedup, mem_sortBy]

theorem sortBy_dedup_ne_nil {xs : List ℤ} (h : xs ≠ []) :
    (sortBy intLe xs).dedup ≠ [] := by
  rcases List.exists_mem_of_ne_nil xs h with ⟨a, ha⟩
  exact List.ne_nil_of_mem (sortBy_dedup_mem.mpr ha)

theorem looks_ordinal_map_int (xs : List ℤ) (h : xs ≠ []) :
    looks_ordinal (xs.map Cell.i) =
      ordinal_of_numeric (xs.map fun n : ℤ => (n : ℚ)) := by
  unfold looks_ordinal
  have h1 : (xs.map Cell.i).map toNumeric =
      xs.map fun n : ℤ => some ((n : ℚ)) := by
    rw [List.map_map]; rfl
  rw [h1]
  cases xs with
  | nil => exact absurd rfl h
  | cons a t =>
      rw [if_neg (by simp)]
      congr 1
      exact filterMap_id_map_some _ _

theorem map_truncQ_map_intCast (xs : List ℤ) :
    (xs.map fun n : ℤ => (n : ℚ)).map truncQ = xs := by
  rw [List.map_map]
  have h : (truncQ ∘ fun n : ℤ => ((n : ℚ))) = id := by
    funext n; exact truncQ_intCast n
  rw [h, List.map_id]

/-- Reduction of looks_ordinal on a non-unique integer column to the
single-gap / common-scale rule. -/
theorem ordinal_nonunique_eval (xs : List ℤ) (h1 : xs ≠ [])
    (h2 : allUniqueCounts xs = false) :
    looks_ordinal_ints xs = c1AmendedRule xs := by
  unfold looks_ordinal_ints
  rw [looks_ordinal_map_int xs h1]
  unfold ordinal_of_numeric c1AmendedRule
  unfold allUniqueCounts at h2
  simp only [map_truncQ_map_intCast, h2, Bool.false_eq_true, if_false]

/-! Claim theorems. -/

/-- C1, counterexample to the claim as stated: the integer column
0, 0, 2, 2 has non-unique values, its sorted distinct values 0 and 2 are
not a gap-1 consecutive run, and its maximum 2 is none of the quoted
common-scale maxima, so the claim classifies it not ordinal; looks_ordinal
classifies it ordinal (increasing integers), because the code only
requires one single common gap, not gap 1. -/
theorem c1_counterexample :
    (looks_ordinal_ints [0, 0, 2, 2]).1 = true ∧
    c1ClaimRule [0, 0, 2, 2] = false := by decide

/-- C1 (amended): for every integer-coercible column whose non-missing
values are not all unique, the ordinal check classifies it ordinal exactly
when either (a) the successive differences of the sorted distinct values
all equal one single common gap (with values spanning exactly 0 and 1
reported as a binary indicator), or (b) the differences are not all equal
and the maximum value is in 4, 6 (0-indexed Likert), 5, 7 (Likert),
10, 100 (common scale max) or 9, 99 (0-indexed common scale max);
otherwise it is not ordinal. -/
theorem c1_amended_ordinal_rule (xs : List ℤ) (h1 : xs ≠ [])
    (h2 : allUniqueCounts xs = false) :
    looks_ordinal_ints xs = c1AmendedRule xs :=
  ordinal_nonunique_eval xs h1 h2

/-- Witness for C1 amended at the concrete non-unique column 1, 1, 3, 3. -/
theorem c1_amended_witness :
    looks_ordinal_ints [1, 1, 3, 3] = c1AmendedRule [1, 1, 3, 3] :=
  c1_amended_ordinal_rule [1, 1, 3, 3] (by decide) (by decide)

/-- C3: the code drops classes with at most 20 supporting rows, so a class
with exactly 20 rows (which the claim and the function's own warning text
say is retained) is removed: on a target of 20 zeros and 21 ones,
encode_target keeps only the 21 rows of class one and encodes them to 0. -/
theorem c3_twenty_member_class_dropped :
    (List.replicate 20 (0 : ℤ) ++ List.replicate 21 1).count 0 = 20 ∧
    (encode_target (List.range 41)
      (List.replicate 20 (0 : ℤ) ++ List.replicate 21 1)).2 =
        List.replicate 21 0 ∧
    ((encode_target (List.range 41)
      (List.replicate 20 (0 : ℤ) ++ List.replicate 21 1)).1).length = 21 := by
  decide

set_option maxRecDepth 40000 in
/-- C7, counterexample to the claim as stated: an integer column whose
distinct values are exactly 0..100 (each once, plus one duplicated 0, so
size 102 and maximum 100) is a perfectly consecutive run, so looks_ordinal
reports increasing integers, not the "common scale max" reason the claim
requires. -/
theorem c7_counterexample :
    looks_ordinal_ints ((List.range 101).map Int.ofNat ++ [0]) =
      (true, OrdReason.increasingInts) ∧
    OrdReason.increasingInts ≠ OrdReason.commonScaleMax :=
  ⟨rfl, by decide⟩

/-- C7 (amended): for an integer column with values in 0..100, size at
least 100, some value repeated and sorted distinct values not all one
common gap apart, a maximum of 100 yields the ordinal "common scale max"
verdict and a maximum of 99 the "0-indexed common scale max" one. -/
theorem c7_amended_scale_max (xs : List ℤ) (h1 : xs ≠ [])
    (h2 : allUniqueCounts xs = false)
    (h3 : ((((sortBy intLe xs).dedup).zipWith (fun a b => b - a)
      ((sortBy intLe xs).dedup).tail).dedup).length ≠ 1)
    (h4 : ∀ x ∈ xs, 0 ≤ x ∧ x ≤ 100) (h5 : 100 ≤ xs.length) :
    (listMaxZ xs = 100 →
      looks_ordinal_ints xs = (true, OrdReason.commonScaleMax)) ∧
    (listMaxZ xs = 99 →
      looks_ordinal_ints xs = (true, OrdReason.zeroIdxScaleMax)) := by
  have hmax : listMaxZ ((sortBy intLe xs).dedup) = listMaxZ xs :=
    listMaxZ_congr (sortBy_dedup_ne_nil h1) h1 (fun a => sortBy_dedup_mem)
  rw [ordinal_nonunique_eval xs h1 h2]
  simp only [c1AmendedRule]
  rw [if_neg h3]
  constructor <;> intro hm <;> rw [hmax, hm] <;> decide

set_option maxRecDepth 40000 in
/-- Witness for C7 amended: 97 zeros with 1, 50 and 100 appended satisfy
all hypotheses of the amended claim with maximum 100. -/
theorem c7_amended_witness :
    looks_ordinal_ints (List.replicate 97 0 ++ [1, 50, 100]) =
      (true, OrdReason.commonScaleMax) :=
  (c7_amended_scale_max (List.replicate 97 0 ++ [1, 50, 100]) (by decide)
    (by decide) (by decide) (by decide) (by decide)).1 (by decide)

/-- C8: on four tables where X, X_cont and X_cat have one row but y has
two, validate raises the target dimension-mismatch error, but the sample
count the message reports is len(X_cat) = 1 rather than len(y) = 2 (the
source formats the wrong variable into the message). -/
theorem c8_target_mismatch_reports_wrong_count :
    validate { data := [[Cell.i 1]], index := [0] }
      { data := [[Cell.i 1]], index := [0] }
      { data := [[Cell.i 1]], index := [0] }
      { data := [Cell.i 1, Cell.i 2], index := [0, 1] } =
      .error { table := "Target", reported := 1, expected := 1 } ∧
    ({ data := [Cell.i 1, Cell.i 2], index := [0, 1] } : PSeries).data.length = 2 :=
  ⟨rfl, rfl⟩

/-- C10, counterexample to the claim as stated: prob_unq_ordinals is
claimed to return exactly 1.0 whenever n_samples is at most 2, but at
n_samples = 2, ordinal_max = 1 the early n_samples > ordinal_max guard
fires first and returns 0.0. -/
theorem c10_counterexample :
    (2 : ℕ) ≤ 2 ∧ prob_unq_ordinals 2 1 = 0 ∧ (0 : ℚ) ≠ 1 := by decide

/-- C2, counterexample to the claim as stated: the column of the strings
0.5 and 1.5 has all-unique stringified values, yet looks_id_like returns
false because the float-likeness guard fires before the uniqueness
check. -/
theorem c2_counterexample :
    (([Cell.s "0.5", Cell.s "1.5"].map strCell).dedup.all
      (fun v => decide (([Cell.s "0.5", Cell.s "1.5"].map strCell).count v = 1))
        = true) ∧
    looks_id_like [Cell.s "0.5", Cell.s "1.5"] =
      .ok (false, IdReason.appearsFloat) :=
  ⟨by decide, rfl⟩

/-- C2 (amended): for every column that the float check does not classify
float-like (and that is not a pandas-categorical dtype column, which the
code also short-circuits), all-unique stringified values imply that
looks_id_like returns true (in particular it does not raise: the program
returns at line 321, before the unguarded np.unique of line 328). -/
theorem c2_amended_unique_implies_id (col : List Cell)
    (hf : (looks_floatlike col).1 = false)
    (hu : (col.map strCell).dedup.all
      (fun v => decide ((col.map strCell).count v = 1)) = true) :
    looks_id_like col = .ok (true, IdReason.allUniqueWithNaNs) := by
  simp only [looks_id_like, hf, Bool.false_eq_true, if_false, hu, if_true]

/-- Witness for C2 amended at a concrete two-string column. -/
theorem c2_amended_witness :
    looks_id_like [Cell.s "x", Cell.s "y"] =
      .ok (true, IdReason.allUniqueWithNaNs) :=
  c2_amended_unique_implies_id [Cell.s "x", Cell.s "y"] (by decide) (by decide)

theorem exceptIsOk_eq {e : Except ε α} (h : exceptIsOk e = true) :
    ∃ a, e = .ok a := by
  cases e with
  | error c => simp [exceptIsOk] at h
  | ok a => exact ⟨a, rfl⟩

/-- C5, counterexample to the claim as stated: in dfMix the column c
fires both the ordinal and the categorical heuristic and is declared in
neither user list, yet inspect_data raises the worker-failure
InspectionError naming only the mixed-type column m (whose identifier
check raised the numpy sort TypeError), not the fatal error carrying the
ambiguous column list. -/
theorem c5_counterexample :
    ((inspect_str_column oracleF [] [] [] [] "c"
        (lookupCol (dfMix.filter fun p => p.1 ≠ "t") "c")).map
      (fun d => (d.ord.isSome, d.cat.isSome)) = .ok (true, true)) ∧
    inspect_data oracleF subEmpty subEmpty dfMix "t" [] [] =
      .error (.workerFailure "m") ∧
    InspectionErr.workerFailure "m" ≠ InspectionErr.ambiguity ["c"] :=
  ⟨rfl, rfl, by decide⟩

/-- C5 (amended): whenever every per-column classification succeeds (no
inspection worker failure, in particular no column reaching the unguarded
np.unique of looks_id_like with mixed integer/string values) and some
column fires both the ordinal and the categorical heuristic and is
declared in neither the user categoricals nor the user ordinals
(ambiguousColumns nonempty), inspect_data raises the fatal TypeError
embedding exactly that sorted column list and returns no
InspectionResults. -/
theorem c5_ambiguity_fatal (dparse : String → Bool) (sub sub2 : String → List ℕ)
    (df : Df) (target : String) (categoricals ordinals : List String)
    (hS : exceptIsOk (inspect_str_columns dparse sub sub2
      (df.filter fun c => c.1 ≠ target) (get_str_cols df target)
      categoricals ordinals) = true)
    (hI : exceptIsOk (inspect_str_columns dparse sub sub2
      (df.filter fun c => c.1 ≠ target) (get_int_cols df target)
      categoricals ordinals) = true)
    (h : ambiguousColumns dparse sub sub2 df target categoricals ordinals ≠ []) :
    inspect_data dparse sub sub2 df target categoricals ordinals =
      .error (.ambiguity
        (ambiguousColumns dparse sub sub2 df target categoricals ordinals)) := by
  obtain ⟨rS, hrS⟩ := exceptIsOk_eq hS
  obtain ⟨rI, hrI⟩ := exceptIsOk_eq hI
  simp only [inspect_data, hrS, hrI]
  rw [if_neg h]

/-- Witness for C5 amended: on dfAmb both batches succeed, the string
column c is binary-ordinal and categorical at once, and inspection
aborts with the singleton list c. -/
theorem c5_witness :
    inspect_data oracleF subEmpty subEmpty dfAmb "t" [] [] =
      .error (.ambiguity ["c"]) := by
  have h : ambiguousColumns oracleF subEmpty subEmpty dfAmb "t" [] [] = ["c"] := by
    decide
  rw [c5_ambiguity_fatal oracleF subEmpty subEmpty dfAmb "t" [] [] (by decide)
    (by decide) (by rw [h]; decide), h]

/-- C10 (amended): prob_unq_ordinals returns exactly 0.0 whenever
n_samples exceeds ordinal_max, and exactly 1.0 (the empty product)
whenever n_samples is at most 2 and does not exceed ordinal_max; hence an
integer-coercible column holding exactly two distinct values with maximum
at least 2 satisfies maybe_large_ordinal and looks_ordinal classifies it
as a large-range ordinal regardless of the actual values. -/
theorem c10_amended_edge_cases (n : ℕ) (M : ℤ) (a b : ℤ)
    (hne : a ≠ b) (hM : 2 ≤ max a b) :
    ((n : ℤ) > M → prob_unq_ordinals n M = 0) ∧
    (n ≤ 2 → (n : ℤ) ≤ M → prob_unq_ordinals n M = 1) ∧
    maybe_large_ordinal [(a : ℚ), (b : ℚ)] = true ∧
    looks_ordinal [Cell.i a, Cell.i b] = (true, OrdReason.largeRange) := by
  have hprob : prob_unq_ordinals 2 (max a b) = 1 := by
    unfold prob_unq_ordinals
    rw [if_neg (by exact_mod_cast not_lt.mpr hM)]
    rfl
  have hml : maybe_large_ordinal ([a, b].map fun n : ℤ => (n : ℚ)) = true := by
    unfold maybe_large_ordinal
    rw [show listMaxQ ([a, b].map fun n : ℤ => (n : ℚ)) = ((max a b : ℤ) : ℚ) from by
      show max (a : ℚ) (b : ℚ) = ((max a b : ℤ) : ℚ)
      rw [Int.cast_max], truncQ_intCast]
    show decide (prob_unq_ordinals 2 (max a b) ≥ 1/2) = true
    rw [hprob]
    decide
  refine ⟨fun h => by unfold prob_unq_ordinals; rw [if_pos h], ?_, hml, ?_⟩
  · intro h2 hle
    unfold prob_unq_ordinals
    rw [if_neg (not_lt.mpr hle)]
    have hz : n - 2 = 0 := Nat.sub_eq_zero_of_le h2
    rw [hz]
    rfl
  · have hcol : [Cell.i a, Cell.i b] = [a, b].map Cell.i := rfl
    rw [hcol, looks_ordinal_map_int [a, b] (by simp)]
    unfold ordinal_of_numeric
    simp only [map_truncQ_map_intCast]
    rw [if_pos, if_pos hml]
    rw [List.all_eq_true]
    intro v hv
    rw [sortBy_dedup_mem] at hv
    have hca : ([a, b] : List ℤ).count a = 1 := by
      simp [List.count_cons, hne, Ne.symm hne]
    have hcb : ([a, b] : List ℤ).count b = 1 := by
      simp [List.count_cons, hne, Ne.symm hne]
    rcases List.mem_cons.mp hv with rfl | hv2
    · simp [hca]
    · rcases List.mem_cons.mp hv2 with rfl | hv3
      · simp [hcb]
      · simp at hv3

/-- Witness for C10 amended at n_samples 2, ordinal_max 5 and the column
holding 0 and 3. -/
theorem c10_amended_witness :
    prob_unq_ordinals 2 5 = 1 ∧
    looks_ordinal [Cell.i 0, Cell.i 3] = (true, OrdReason.largeRange) := by
  have h := c10_amended_edge_cases 2 5 0 3 (by decide) (by decide)
  exact ⟨h.2.1 (by decide) (by decide), h.2.2.2⟩

/-- Characterization of a fired inflation record: its column, the two
threshold conditions that let it fire, and its fields. -/
theorem inflationInfoFor_spec {df : Df} {c : String} {info : InflationInfo}
    (h : inflationInfoFor df c = some info) :
    info.col = c ∧
    2 < (colLevels df c).length ∧
    (¬ ∀ v ∈ colLevels df c, N_CAT_LEVEL_MIN ≤ levelSupport df c v) ∧
    info.to_keep = (colLevels df c).filter
      (fun v => decide (N_CAT_LEVEL_MIN ≤ levelSupport df c v)) ∧
    info.to_deflate = (colLevels df c).filter
      (fun v => !decide (N_CAT_LEVEL_MIN ≤ levelSupport df c v)) ∧
    info.n_keep = info.to_keep.length ∧
    info.n_deflate = (colLevels df c).length - info.to_keep.length ∧
    info.n_total = (colLevels df c).length := by
  simp only [inflationInfoFor] at h
  by_cases h1 : ((lookupCol df c).map strCell).dedup.length ≤ 2
  · rw [if_pos h1] at h
    exact absurd h (by simp)
  · rw [if_neg h1] at h
    by_cases h2 : (((lookupCol df c).map strCell).dedup.all
        (fun v => decide (N_CAT_LEVEL_MIN ≤
          ((lookupCol df c).map strCell).count v))) = true
    · rw [if_pos h2] at h
      exact absurd h (by simp)
    · rw [if_neg h2] at h
      injection h with h3
      subst h3
      refine ⟨rfl, not_le.mp h1, ?_, rfl, rfl, rfl, rfl, rfl⟩
      intro hall
      apply h2
      rw [List.all_eq_true]
      intro v hv
      simpa using hall v hv

/-- C6: the Inflation Detector emits nothing for columns with at most two
distinct stringified levels or with every level's support at least
N_CAT_LEVEL_MIN, and every emitted InflationInfo satisfies
n_keep + n_deflate = n_total, kept levels have support at least the
threshold, deflated levels have support strictly below it, and the kept
and deflated levels partition the distinct levels. -/
theorem c6_inflation_invariants (df : Df) (uc : List (String × ℕ))
    (all_cats : List String) :
    (∀ col, (colLevels df col).length ≤ 2 →
      ∀ info ∈ (detect_big_cats df uc all_cats).2, info.col ≠ col) ∧
    (∀ col, (∀ v ∈ colLevels df col, N_CAT_LEVEL_MIN ≤ levelSupport df col v) →
      ∀ info ∈ (detect_big_cats df uc all_cats).2, info.col ≠ col) ∧
    (∀ info ∈ (detect_big_cats df uc all_cats).2,
      info.n_keep + info.n_deflate = info.n_total ∧
      (∀ v ∈ info.to_keep, N_CAT_LEVEL_MIN ≤ levelSupport df info.col v) ∧
      (∀ v ∈ info.to_deflate, levelSupport df info.col v < N_CAT_LEVEL_MIN) ∧
      (∀ v, v ∈ colLevels df info.col ↔ (v ∈ info.to_keep ∨ v ∈ info.to_deflate)) ∧
      (∀ v, ¬(v ∈ info.to_keep ∧ v ∈ info.to_deflate))) := by
  have hmem : ∀ info : InflationInfo, info ∈ (detect_big_cats df uc all_cats).2 ↔
      ∃ c ∈ all_cats, inflationInfoFor df c = some info := by
    intro info
    simp only [detect_big_cats]
    exact List.mem_filterMap
  refine ⟨?_, ?_, ?_⟩
  · intro col hle info hin heq
    rcases (hmem info).mp hin with ⟨c, _, hsome⟩
    obtain ⟨hcol, hgt, _⟩ := inflationInfoFor_spec hsome
    have hcc : c = col := by rw [← hcol, heq]
    subst hcc
    exact absurd hgt (not_lt.mpr hle)
  · intro col hall info hin heq
    rcases (hmem info).mp hin with ⟨c, _, hsome⟩
    obtain ⟨hcol, _, hnall, _⟩ := inflationInfoFor_spec hsome
    have hcc : c = col := by rw [← hcol, heq]
    subst hcc
    exact hnall hall
  · intro info hin
    rcases (hmem info).mp hin with ⟨c, _, hsome⟩
    obtain ⟨hcol, _, _, hkeep, hdef, hnk, hnd, hnt⟩ := inflationInfoFor_spec hsome
    subst hcol
    refine ⟨?_, ?_, ?_, ?_, ?_⟩
    · rw [hnk, hnd, hnt]
      have hle2 : info.to_keep.length ≤ (colLevels df info.col).length := by
        rw [hkeep]; exact List.length_filter_le _ _
      omega
    · intro v hv
      rw [hkeep] at hv
      simpa using (List.mem_filter.mp hv).2
    · intro v hv
      rw [hdef] at hv
      have := (List.mem_filter.mp hv).2
      simp only [Bool.not_eq_true', decide_eq_false_iff_not, not_le] at this
      exact this
    · intro v
      constructor
      · intro hv
        by_cases hs : N_CAT_LEVEL_MIN ≤ levelSupport df info.col v
        · exact Or.inl (by rw [hkeep]; exact List.mem_filter.mpr ⟨hv, by simpa using hs⟩)
        · refine Or.inr (by rw [hdef]; exact List.mem_filter.mpr ⟨hv, by simpa using hs⟩)
      · intro hv
        rcases hv with hv | hv
        · rw [hkeep] at hv; exact (List.mem_filter.mp hv).1
        · rw [hdef] at hv; exact (List.mem_filter.mp hv).1
    · intro v ⟨hv1, hv2⟩
      rw [hkeep] at hv1
      rw [hdef] at hv2
      have h1 := (List.mem_filter.mp hv1).2
      have h2 := (List.mem_filter.mp hv2).2
      simp only [Bool.not_eq_true'] at h2
      rw [h2] at h1
      exact Bool.false_ne_true h1

/-- Witness for C6 on dfInfl: the emitted record for column k respects the
count identity, level b is kept with support 25 at least 20, and level a
is deflated with support 10 below 20. -/
theorem c6_witness :
    inflInfo.n_keep + inflInfo.n_deflate = inflInfo.n_total ∧
    N_CAT_LEVEL_MIN ≤ levelSupport dfInfl "k" "b" ∧
    levelSupport dfInfl "k" "a" < N_CAT_LEVEL_MIN := by
  have h := (c6_inflation_invariants dfInfl [] ["k"]).2.2 inflInfo (by decide)
  exact ⟨h.1, h.2.1 "b" (by decide), h.2.2.1 "a" (by decide)⟩

/-- C9: under the drop NaN-handling strategy, handle_continuous_nans
fails with the list of the alternate strategies exactly when dropping NaN
columns and then NaN rows leaves zero rows or zero columns in the
continuous predictor table, and proceeds normally otherwise. -/
theorem c9_drop_exhaustion (df : DFrame) (target : String)
    (cat_cols : List String) :
    (dropAnnihilates df target cat_cols = true →
      handle_continuous_nans_drop df target cat_cols =
        .error [NanHandling.mean, NanHandling.median, NanHandling.impute]) ∧
    (dropAnnihilates df target cat_cols = false →
      ∃ out, handle_continuous_nans_drop df target cat_cols = .ok out) := by
  refine ⟨fun h => ?_, fun h => ?_⟩
  · unfold dropAnnihilates at h
    simp only [handle_continuous_nans_drop]
    rw [if_pos h]
  · unfold dropAnnihilates at h
    simp only [handle_continuous_nans_drop]
    have hn : ¬((decide ((dropCleaned df target cat_cols).nrows = 0) ||
        decide ((dropCleaned df target cat_cols).cols.length = 0)) = true) := by
      rw [h]; exact Bool.false_ne_true
    rw [if_neg hn]
    exact ⟨_, rfl⟩

/-- Witness for C9: on dfNan the only continuous column is entirely NaN,
dropping it leaves zero columns, and the call fails listing the mean,
median and iterative-imputation strategies. -/
theorem c9_witness :
    handle_continuous_nans_drop dfNan "t" [] =
      .error [NanHandling.mean, NanHandling.median, NanHandling.impute] :=
  (c9_drop_exhaustion dfNan "t" []).1 (by decide)

/-- The sampling tail of looks_timelike equals the claim's disjunction:
the subsample fully parses, or more than a third parses and the secondary
rate exceeds one half. -/
theorem timelike_branch_eq (p : String → Bool) (sample : List String)
    (n m : ℕ) (hn : 0 < n) (hlen : sample.length = n) :
    (if ((sample.countP p : ℚ) / (n : ℚ) ≥ 1) then (true, TimeReason.allParse)
     else if ((sample.countP p : ℚ) / (n : ℚ) > 1/3) then
       if ((sample.countP p : ℚ) / (m : ℚ) > 1/2) then (true, TimeReason.mostParse)
       else (false, TimeReason.notTime)
     else (false, TimeReason.notTime)).1 =
    (sample.all p || (decide ((1/3 : ℚ) < (sample.countP p : ℚ) / (n : ℚ)) &&
      decide ((1/2 : ℚ) < (sample.countP p : ℚ) / (m : ℚ)))) := by
  have hQpos : (0 : ℚ) < (n : ℚ) := by exact_mod_cast hn
  have hiff : ((sample.countP p : ℚ) / (n : ℚ) ≥ 1) ↔ sample.all p = true := by
    rw [ge_iff_le, one_le_div hQpos, Nat.cast_le]
    constructor
    · intro hh
      have h3 : sample.countP p = sample.length :=
        le_antisymm (List.countP_le_length _) (by rw [hlen]; exact hh)
      rw [List.all_eq_true]
      intro x hx
      exact List.countP_eq_length.mp h3 x hx
    · intro hall
      have h3 : sample.countP p = sample.length :=
        List.countP_eq_length.mpr (fun a ha => List.all_eq_true.mp hall a ha)
      rw [h3, hlen]
  by_cases hA : ((sample.countP p : ℚ) / (n : ℚ) ≥ 1)
  · rw [if_pos hA, hiff.mp hA, Bool.true_or]
  · rw [if_neg hA]
    have hall : sample.all p = false := by
      rw [← Bool.not_eq_true]
      intro hh
      exact hA (hiff.mpr hh)
    rw [hall, Bool.false_or]
    by_cases hB : ((sample.countP p : ℚ) / (n : ℚ) > 1/3)
    · rw [if_pos hB, decide_eq_true hB, Bool.true_and]
      by_cases hC : ((sample.countP p : ℚ) / (m : ℚ) > 1/2)
      · rw [if_pos hC, decide_eq_true hC]
      · rw [if_neg hC, decide_eq_false hC]
    · rw [if_neg hB, decide_eq_false hB, Bool.false_and]

/-- C4: looks_timelike returns false whenever the column converts to int
or float; otherwise false when every distinct stringified level has
support strictly above N_CAT_LEVEL_MIN regardless of parse rate;
otherwise, on a subsample of size min(N, max(ceil(N/2), 500)), it returns
true exactly when 100 percent of the subsample date-parses, or more than
a third parses and the secondary evaluation's parse rate exceeds one
half. -/
theorem c4_timelike (dparse : String → Bool) (idx : List ℕ) (col : List Cell)
    (hlen : idx.length =
      min (max (((col.map strCell).length + 1) / 2) 500) (col.map strCell).length)
    (hnd : idx.Nodup) (hmem : ∀ j ∈ idx, j < (col.map strCell).length) :
    (looks_timelike dparse idx col).1 = c4ClaimRule dparse idx col := by
  by_cases hci : converts_to_int col = true
  · simp [looks_timelike, c4ClaimRule, hci]
  · rw [Bool.not_eq_true] at hci
    by_cases hcf : converts_to_float col = true
    · simp [looks_timelike, c4ClaimRule, hci, hcf]
    · rw [Bool.not_eq_true] at hcf
      by_cases hlev : ((col.map strCell).dedup.all
          (fun v => decide (N_CAT_LEVEL_MIN < (col.map strCell).count v))) = true
      · simp [looks_timelike, c4ClaimRule, hci, hcf, hlev]
      · rw [Bool.not_eq_true] at hlev
        have hstrs_ne : col.map strCell ≠ [] := by
          intro h0
          rw [h0] at hlev
          simp at hlev
        have hNpos : 0 < (col.map strCell).length := List.length_pos.mpr hstrs_ne
        have hnpos : 0 < min (max (((col.map strCell).length + 1) / 2) 500)
            (col.map strCell).length :=
          lt_min (lt_of_lt_of_le (by norm_num) (le_max_right _ _)) hNpos
        have hslen : (idx.map fun j => (col.map strCell).getD j "").length =
            min (max (((col.map strCell).length + 1) / 2) 500)
              (col.map strCell).length := by
          rw [List.length_map]
          exact hlen
        simp only [looks_timelike, c4ClaimRule, hci, hcf, hlev, Bool.false_eq_true,
          if_false, Bool.not_false, Bool.true_and]
        exact timelike_branch_eq (is_timelike dparse) _ _ idx.length hnpos hslen

/-- Witness for C4 at a one-string column with the full subsample index
and a rejecting date-parse oracle. -/
theorem c4_witness :
    (looks_timelike oracleF [0] [Cell.s "a"]).1 =
      c4ClaimRule oracleF [0] [Cell.s "a"] :=
  c4_timelike oracleF [0] [Cell.s "a"] (by decide) (by decide) (by decide)

end

end DfAnalyze
